import Mathlib

/-
Verification of the foreign-investor night-futures analysis pipeline
(src/main.py) against its natural-language specification.

The pipeline is shallowly embedded:
  * floating-point values are idealised as rationals (ℚ);
  * a pandas NaN / non-finite value in a numeric field is `none`;
  * `pd.to_datetime` and `pd.to_numeric` are external library parsers, so a
    decoded cell carries its raw text together with the parse results the
    two parsers would produce on it (`asDate`, `asNum`);
  * dates are day ordinals (Int), which preserves the ordering that both
    `sort_values('날짜')` and the string sort on '%Y-%m-%d' formatted dates use;
  * errors are an explicit `LoadError` inductive: the Python code raises
    `ValueError`s (the spec taxonomy names them SchemaError / NoDataError),
    pandas raises on `df.iloc[0,0]` for an empty frame (`indexError`) and on
    assigning 5 column names to a frame with more than 5 columns
    (`lengthMismatch`); all are caught by the outer handler of
    `load_and_process_data`, which then returns no series.
-/

/-- One decoded cell of the tabular file: its raw text (`none` = NaN produced
by `read_csv`), the day ordinal `pd.to_datetime(errors='coerce')` yields on it
(`none` = NaT), and the rational `pd.to_numeric(errors='coerce')` yields after
the comma/quote stripping of `main.py` lines 333-337 (`none` = NaN). -/
structure Cell where
  raw : Option String
  asDate : Option Int
  asNum : Option ℚ
deriving DecidableEq

/-- The NaN cell. -/
def Cell.na : Cell := ⟨none, none, none⟩

/-- A decoded frame: the column count `read_csv` produced and the data rows. -/
structure RawFrame where
  ncols : Nat
  rows : List (List Cell)
deriving DecidableEq

/-- Failure modes of `load_and_process_data` (spec section 7 taxonomy, plus the
two pandas-raised failures the code does not special-case). -/
inductive LoadError where
  | encodingError
  | indexError
  | schemaError (ncols : Nat)
  | lengthMismatch (ncols : Nat)
  | noDataError
deriving DecidableEq

/-- Substring test on character lists, used for the `'단위' in str(...)`
membership test of `main.py` line 251. -/
def hasSub : List Char → List Char → Bool
  | [], pat => pat.isEmpty
  | c :: t, pat => pat.isPrefixOf (c :: t) || hasSub t pat

/-- The first-row header test of `main.py` line 251:
`df.iloc[0,0] in ['단위', 'UNIT', '구분'] or '단위' in str(df.iloc[0,0])`.
For a NaN cell `str` gives "nan", which matches neither alternative. -/
def isUnitMarker (c : Cell) : Bool :=
  match c.raw with
  | none => false
  | some s => s == "단위" || s == "UNIT" || s == "구분" || hasSub s.data "단위".data

/-- The second-row header test of `main.py` line 261:
`df.iloc[0,0] in ['', 'nan', 'NaN'] or pd.isna(df.iloc[0,0])`. -/
def isBlankMarker (c : Cell) : Bool :=
  match c.raw with
  | none => true
  | some s => s == "" || s == "nan" || s == "NaN"

/-- Header stripping, `main.py` lines 249-263: drop the first row if its first
cell is a unit marker, then drop the (new) first row if its first cell is
blank/NaN.  Each inspection is `df.iloc[0, 0]`, which raises on an empty frame
(`none` here). -/
def stripHeaders : List (List Cell) → Option (List (List Cell))
  | [] => none
  | r0 :: rest =>
    let rows1 := if isUnitMarker (r0.headD Cell.na) then rest else r0 :: rest
    match rows1 with
    | [] => none
    | r1 :: rest1 => some (if isBlankMarker (r1.headD Cell.na) then rest1 else r1 :: rest1)

/-- Column assignment, `main.py` lines 269-277.  `expected_columns` has exactly
5 entries, and `df.columns = expected_columns[:len(df.columns)]` assigns
`min(5, ncols)` names: with fewer than 5 columns the code raises its own
ValueError (the spec's SchemaError); with more than 5 columns pandas raises
"Length mismatch" because 5 names are assigned to more than 5 columns; only
with exactly 5 columns does the assignment succeed. -/
def assignColumns (ncols : Nat) : Except LoadError Unit :=
  if 5 ≤ ncols then
    if ncols = 5 then Except.ok () else Except.error (LoadError.lengthMismatch ncols)
  else Except.error (LoadError.schemaError ncols)

/-- A row after the positional rename to the five semantic columns
{날짜, K200지수, 야간선물_외국인, 정규장_외국인_선물, 정규장_외국인_현물}. -/
structure Row where
  date : Cell
  index_level : Cell
  night_futures_foreign : Cell
  regular_futures_foreign : Cell
  regular_spot_foreign : Cell
deriving DecidableEq

/-- Positional view of the first five cells of a raw row. -/
def toRow (cs : List Cell) : Row :=
  ⟨cs.getD 0 Cell.na, cs.getD 1 Cell.na, cs.getD 2 Cell.na, cs.getD 3 Cell.na, cs.getD 4 Cell.na⟩

/-- A fully parsed trading-day record (spec section 3 data model). -/
structure BaseRecord where
  date : Int
  index_level : ℚ
  night_futures_foreign : ℚ
  regular_futures_foreign : ℚ
  regular_spot_foreign : ℚ
deriving DecidableEq

/-- Parsing of one renamed row, `main.py` lines 289-337: the date column via
`pd.to_datetime(errors='coerce')`, the four numeric columns via comma/quote
stripping and `pd.to_numeric(errors='coerce')`.  `none` when any field fails,
matching the completeness filter `df.dropna()` of line 347. -/
def parseRow (r : Row) : Option BaseRecord := do
  let d ← r.date.asDate
  let il ← r.index_level.asNum
  let nf ← r.night_futures_foreign.asNum
  let rf ← r.regular_futures_foreign.asNum
  let rs ← r.regular_spot_foreign.asNum
  pure ⟨d, il, nf, rf, rs⟩

/-- The row-filtering stages of `load_and_process_data` after column
assignment (`main.py` lines 281-353): empty-date pruning, date-parse filter
with its NoDataError check, numeric coercion and `dropna()` with its
NoDataError check.  The value is the list of rows surviving every filter. -/
def filterStage (stripped : List (List Cell)) : Except LoadError (List BaseRecord) :=
  if (((stripped.map toRow).filter (fun r => r.date.raw.isSome)).filter
      (fun r => r.date.asDate.isSome)).isEmpty then
    Except.error LoadError.noDataError
  else if ((((stripped.map toRow).filter (fun r => r.date.raw.isSome)).filter
      (fun r => r.date.asDate.isSome)).filterMap parseRow).isEmpty then
    Except.error LoadError.noDataError
  else
    Except.ok ((((stripped.map toRow).filter (fun r => r.date.raw.isSome)).filter
      (fun r => r.date.asDate.isSome)).filterMap parseRow)

/-- `cleanRows` composes header stripping, column assignment and the filtering
stages in the order the Python code runs them. -/
def cleanRows (f : RawFrame) : Except LoadError (List BaseRecord) :=
  match stripHeaders f.rows with
  | none => Except.error LoadError.indexError
  | some stripped =>
    match assignColumns f.ncols with
    | Except.error e => Except.error e
    | Except.ok _ => filterStage stripped

/-- Ascending date order used by `df.sort_values('날짜')` (`main.py` line 359). -/
def dateLe (a b : BaseRecord) : Prop := a.date ≤ b.date

instance : DecidableRel dateLe := fun a b => inferInstanceAs (Decidable (a.date ≤ b.date))

instance : IsTotal BaseRecord dateLe := ⟨fun a b => le_total a.date b.date⟩

instance : IsTrans BaseRecord dateLe := ⟨fun _ _ _ h1 h2 => le_trans h1 h2⟩

/-- The date sort of `main.py` line 359.  (pandas `sort_values` default kind is
quicksort; any correct comparison sort realises the same multiset in ascending
date order, which is all the verified claims depend on.) -/
def sortByDate (l : List BaseRecord) : List BaseRecord := List.insertionSort dateLe l

/-- Rounding to 2 decimals, `.round(2)` of `main.py` line 375. -/
def round2 (q : ℚ) : ℚ := ((round (q * 100) : ℤ) : ℚ) / 100

/-- The change-percentage computation of `main.py` line 375:
`((다음날_K200지수 - K200지수) / K200지수 * 100).round(2)`.  When the current
index level is zero, numpy produces a non-finite value (±inf, or NaN when the
numerator is also zero) without raising; all non-finite outcomes are `none`. -/
def changePct (cur nxt : ℚ) : Option ℚ :=
  if cur = 0 then none else some (round2 ((nxt - cur) / cur * 100))

/-- A record of the output series: the base fields plus the shifted next-day
fields of `main.py` lines 365-375 (`none` models the NaN that `shift(-1)` puts
into the last row, and the non-finite change percentage). -/
structure DerivedRecord where
  date : Int
  index_level : ℚ
  night_futures_foreign : ℚ
  regular_futures_foreign : ℚ
  regular_spot_foreign : ℚ
  next_index_level : Option ℚ
  next_regular_futures_foreign : Option ℚ
  next_regular_spot_foreign : Option ℚ
  index_change_pct : Option ℚ
deriving DecidableEq

/-- Builds record `i` of the derived frame from record `i` of the sorted base
frame and its successor (`none` for the last row). -/
def mkDerived (r : BaseRecord) : Option BaseRecord → DerivedRecord
  | none =>
    { date := r.date, index_level := r.index_level
      night_futures_foreign := r.night_futures_foreign
      regular_futures_foreign := r.regular_futures_foreign
      regular_spot_foreign := r.regular_spot_foreign
      next_index_level := none, next_regular_futures_foreign := none
      next_regular_spot_foreign := none, index_change_pct := none }
  | some s =>
    { date := r.date, index_level := r.index_level
      night_futures_foreign := r.night_futures_foreign
      regular_futures_foreign := r.regular_futures_foreign
      regular_spot_foreign := r.regular_spot_foreign
      next_index_level := some s.index_level
      next_regular_futures_foreign := some s.regular_futures_foreign
      next_regular_spot_foreign := some s.regular_spot_foreign
      index_change_pct := changePct r.index_level s.index_level }

/-- The `shift(-1)` join of `main.py` lines 365-375: record `i` receives the
base values of record `i+1`; the last record receives NaN. -/
def deriveNext : List BaseRecord → List DerivedRecord
  | [] => []
  | [r] => [mkDerived r none]
  | r :: s :: rest => mkDerived r (some s) :: deriveNext (s :: rest)

/-- Full `load_and_process_data` (`main.py` lines 215-393): clean, sort
ascending by date, derive the next-day fields, and drop the last row
(`df = df[:-1]`, line 381). -/
def load_and_process_data (f : RawFrame) : Except LoadError (List DerivedRecord) :=
  match cleanRows f with
  | Except.error e => Except.error e
  | Except.ok rows => Except.ok ((deriveNext (sortByDate rows)).dropLast)

/-- The three derived-metric kinds of spec section 4.2. -/
inductive MetricKind where
  | futures
  | spot
  | index
deriving DecidableEq

/-- The target field each metric compares `야간선물_외국인` against
(`main.py` lines 789-799, 855-865, 923-933). -/
def targetField : MetricKind → DerivedRecord → Option ℚ
  | MetricKind.futures, r => r.next_regular_futures_foreign
  | MetricKind.spot, r => r.next_regular_spot_foreign
  | MetricKind.index, r => r.index_change_pct

/-- Pandas comparison `column > 0`: NaN compares false. -/
def optPos : Option ℚ → Bool
  | none => false
  | some v => decide (0 < v)

/-- Pandas comparison `column < 0`: NaN compares false. -/
def optNeg : Option ℚ → Bool
  | none => false
  | some v => decide (v < 0)

/-- `same_trend_positive_*` of `main.py` (e.g. lines 789-791): number of rows
with a positive night-futures value and a positive target value. -/
def sameTrendPositive (k : MetricKind) (rows : List DerivedRecord) : Nat :=
  rows.countP (fun r => decide (0 < r.night_futures_foreign) && optPos (targetField k r))

/-- `same_trend_negative_*` of `main.py` (e.g. lines 797-799): number of rows
with a negative night-futures value and a negative target value. -/
def sameTrendNegative (k : MetricKind) (rows : List DerivedRecord) : Nat :=
  rows.countP (fun r => decide (r.night_futures_foreign < 0) && optNeg (targetField k r))

/-- The co-movement probability of `main.py` lines 785-825 (and the analogous
blocks for spot and index): on an empty slice no probability is computed (the
page shows an information message instead); otherwise the two trend counts are
summed and divided by the number of rows, times 100. -/
def coMovementProbability (k : MetricKind) (rows : List DerivedRecord) : Option ℚ :=
  if rows.isEmpty then none
  else some (((sameTrendPositive k rows + sameTrendNegative k rows : Nat) : ℚ)
    / (rows.length : ℚ) * 100)

/-- The same-direction predicate as the spec words it (section 4.2): night
value and target value both strictly positive, or both strictly negative. -/
def sameDirection (k : MetricKind) (r : DerivedRecord) : Bool :=
  (decide (0 < r.night_futures_foreign) && optPos (targetField k r))
  || (decide (r.night_futures_foreign < 0) && optNeg (targetField k r))

/-- A row of the futures / spot comparison tables: date, night-futures value,
and the next-day value of the compared column. -/
structure CompRowNum where
  date : Int
  night_futures_foreign : ℚ
  next_value : Option ℚ
deriving DecidableEq

/-- A row of the KOSPI200 comparison table, whose display cell combines the
next-day index level with its signed change percentage. -/
structure CompRowIdx where
  date : Int
  night_futures_foreign : ℚ
  next_index_level : Option ℚ
  index_change_pct : Option ℚ
deriving DecidableEq

/-- One table row per record of the futures table (`main.py` lines 429-449). -/
def futuresRow (r : DerivedRecord) : CompRowNum :=
  ⟨r.date, r.night_futures_foreign, r.next_regular_futures_foreign⟩

/-- One table row per record of the spot table (`main.py` lines 507-527). -/
def spotRow (r : DerivedRecord) : CompRowNum :=
  ⟨r.date, r.night_futures_foreign, r.next_regular_spot_foreign⟩

/-- One table row per record of the KOSPI200 table (`main.py` lines 585-631). -/
def k200Row (r : DerivedRecord) : CompRowIdx :=
  ⟨r.date, r.night_futures_foreign, r.next_index_level, r.index_change_pct⟩

/-- Date-descending presentation order of the tables (`sort_values(...,
ascending=False)` on the '%Y-%m-%d' date strings, whose lexicographic order
agrees with the day-ordinal order). -/
def laterNum (a b : CompRowNum) : Prop := b.date ≤ a.date

/-- Date-descending presentation order for KOSPI200 table rows. -/
def laterIdx (a b : CompRowIdx) : Prop := b.date ≤ a.date

instance : DecidableRel laterNum := fun a b => inferInstanceAs (Decidable (b.date ≤ a.date))

instance : IsTotal CompRowNum laterNum := ⟨fun a b => le_total b.date a.date⟩

instance : IsTrans CompRowNum laterNum := ⟨fun _ _ _ h1 h2 => le_trans h2 h1⟩

instance : DecidableRel laterIdx := fun a b => inferInstanceAs (Decidable (b.date ≤ a.date))

instance : IsTotal CompRowIdx laterIdx := ⟨fun a b => le_total b.date a.date⟩

instance : IsTrans CompRowIdx laterIdx := ⟨fun _ _ _ h1 h2 => le_trans h2 h1⟩

/-- `create_comparison_table_futures` (`main.py` lines 425-455): one row per
record, then sorted most-recent-first. -/
def create_comparison_table_futures (rows : List DerivedRecord) : List CompRowNum :=
  List.insertionSort laterNum (rows.map futuresRow)

/-- `create_comparison_table_spot` (`main.py` lines 503-533). -/
def create_comparison_table_spot (rows : List DerivedRecord) : List CompRowNum :=
  List.insertionSort laterNum (rows.map spotRow)

/-- `create_comparison_table_k200` (`main.py` lines 581-637). -/
def create_comparison_table_k200 (rows : List DerivedRecord) : List CompRowIdx :=
  List.insertionSort laterIdx (rows.map k200Row)

/-- The filtering stages can only end in NoDataError or success. -/
theorem filterStage_cases (s : List (List Cell)) :
    filterStage s = Except.error LoadError.noDataError
    ∨ ∃ rows, filterStage s = Except.ok rows := by
  unfold filterStage
  split
  · exact Or.inl rfl
  · split
    · exact Or.inl rfl
    · exact Or.inr ⟨_, rfl⟩

theorem mkDerived_some_date (r s : BaseRecord) : (mkDerived r (some s)).date = r.date := rfl

theorem mkDerived_none_date (r : BaseRecord) : (mkDerived r none).date = r.date := rfl

theorem mkDerived_date (r : BaseRecord) (o : Option BaseRecord) :
    (mkDerived r o).date = r.date := by
  cases o
  · exact mkDerived_none_date r
  · exact mkDerived_some_date r _

theorem deriveNext_cons_cons (r s : BaseRecord) (t : List BaseRecord) :
    deriveNext (r :: s :: t) = mkDerived r (some s) :: deriveNext (s :: t) := rfl

theorem deriveNext_ne_nil (s : BaseRecord) (t : List BaseRecord) :
    deriveNext (s :: t) ≠ [] := by
  cases t <;> simp [deriveNext]

theorem deriveNext_length : ∀ l : List BaseRecord, (deriveNext l).length = l.length
  | [] => rfl
  | [_] => rfl
  | r :: s :: t => by
    rw [deriveNext_cons_cons, List.length_cons, deriveNext_length (s :: t)]
    rfl

theorem deriveNext_map_date :
    ∀ l : List BaseRecord, (deriveNext l).map (fun r => r.date) = l.map (fun r => r.date)
  | [] => rfl
  | [_] => rfl
  | r :: s :: t => by
    rw [deriveNext_cons_cons, List.map_cons, List.map_cons, deriveNext_map_date (s :: t),
      mkDerived_some_date]

/-- Every record surviving the final trim was built from a base record together
with an actual successor record. -/
theorem mem_dropLast_deriveNext :
    ∀ (l : List BaseRecord) (x : DerivedRecord), x ∈ (deriveNext l).dropLast →
      ∃ b s, x = mkDerived b (some s) := by
  intro l
  induction l with
  | nil => intro x h; simp [deriveNext] at h
  | cons r t ih =>
    intro x h
    cases t with
    | nil => simp [deriveNext] at h
    | cons s u =>
      rw [deriveNext_cons_cons, List.dropLast_cons_of_ne_nil (deriveNext_ne_nil s u)] at h
      rcases List.mem_cons.mp h with h1 | h2
      · exact ⟨r, s, h1⟩
      · exact ih x h2

/-- The one-step forward lookup: if records `i` and `i+1` exist in the base
series, record `i` of the derived series pairs them. -/
theorem deriveNext_getElem (l : List BaseRecord) (i : Nat) (r s : BaseRecord)
    (h1 : l[i]? = some r) (h2 : l[i+1]? = some s) :
    (deriveNext l)[i]? = some (mkDerived r (some s)) := by
  induction l generalizing i with
  | nil => simp at h1
  | cons a t ih =>
    cases t with
    | nil =>
      rcases i with _ | j <;> simp at h2
    | cons b u =>
      rw [deriveNext_cons_cons]
      rcases i with _ | j
      · rw [List.getElem?_cons_zero] at h1
        rw [List.getElem?_cons_succ, List.getElem?_cons_zero] at h2
        rw [List.getElem?_cons_zero]
        cases h1
        cases h2
        rfl
      · rw [List.getElem?_cons_succ] at h1 h2
        rw [List.getElem?_cons_succ]
        exact ih j h1 h2

/-- Counting a disjunction of two mutually exclusive predicates splits into the
sum of the two counts. -/
theorem countP_disjoint {α : Type} (p q : α → Bool) (hpq : ∀ a, p a = true → q a = false)
    (l : List α) :
    l.countP (fun a => p a || q a) = l.countP p + l.countP q := by
  induction l with
  | nil => simp
  | cons a t ih =>
    by_cases hp : p a = true
    · have hq := hpq a hp
      simp [List.countP_cons, hp, hq, ih]
      omega
    · have hp' : p a = false := by
        cases hpa : p a
        · rfl
        · exact absurd hpa hp
      simp only [List.countP_cons, hp', Bool.false_or, ih]
      by_cases hq : q a = true <;> simp [hq] <;> omega

/-- Rounding to two decimals moves a rational by at most half of the last
retained decimal place. -/
theorem abs_round2_sub (q : ℚ) : |round2 q - q| ≤ 1 / 200 := by
  have h := abs_sub_round (q * 100)
  have e : round2 q - q = -((q * 100 - ((round (q * 100) : ℤ) : ℚ)) / 100) := by
    unfold round2; ring
  rw [e, abs_neg, abs_div]
  have h100 : |(100 : ℚ)| = 100 := by norm_num
  rw [h100]
  calc |q * 100 - ((round (q * 100) : ℤ) : ℚ)| / 100 ≤ (1 / 2) / 100 := by gcongr
    _ = 1 / 200 := by norm_num

/-- Inverting the rounded change percentage recovers the next index level up to
half of one hundredth of one percent of the current level. -/
theorem roundtrip_bound (cur nxt : ℚ) (h : cur ≠ 0) :
    |cur * (1 + round2 ((nxt - cur) / cur * 100) / 100) - nxt| ≤ |cur| / 20000 := by
  set p := round2 ((nxt - cur) / cur * 100) with hp
  have key : cur * (1 + p / 100) - nxt = cur * (p - (nxt - cur) / cur * 100) / 100 := by
    field_simp
    ring
  rw [key, abs_div, abs_mul]
  have h100 : |(100 : ℚ)| = 100 := by norm_num
  rw [h100]
  have hb : |p - (nxt - cur) / cur * 100| ≤ 1 / 200 := by
    have := abs_round2_sub ((nxt - cur) / cur * 100)
    rw [hp]
    exact this
  calc |cur| * |p - (nxt - cur) / cur * 100| / 100 ≤ |cur| * (1 / 200) / 100 := by gcongr
    _ = |cur| / 20000 := by ring

/-- A date cell whose text parses to day ordinal `d`. -/
def dcell (d : Int) : Cell := ⟨some "2024-01-02", some d, none⟩

/-- A numeric cell whose stripped text parses to `q`. -/
def ncell (q : ℚ) : Cell := ⟨some "1", none, some q⟩

/-- The scenario frame of spec section 8: three valid rows
(2024-01-02, 100.00, +50, +30, +20), (2024-01-03, 101.00, -40, -10, +5),
(2024-01-04, 99.00, +20, +15, -10), with days numbered 2, 3, 4. -/
def exGood : RawFrame :=
  ⟨5, [[dcell 2, ncell 100, ncell 50, ncell 30, ncell 20],
       [dcell 3, ncell 101, ncell (-40), ncell (-10), ncell 5],
       [dcell 4, ncell 99, ncell 20, ncell 15, ncell (-10)]]⟩

/-- Parsed first scenario row. -/
def g1 : BaseRecord := ⟨2, 100, 50, 30, 20⟩

/-- Parsed second scenario row. -/
def g2 : BaseRecord := ⟨3, 101, -40, -10, 5⟩

/-- Parsed third scenario row. -/
def g3 : BaseRecord := ⟨4, 99, 20, 15, -10⟩

theorem cleanRows_exGood : cleanRows exGood = Except.ok [g1, g2, g3] := rfl

theorem load_exGood :
    load_and_process_data exGood
      = Except.ok [mkDerived g1 (some g2), mkDerived g2 (some g3)] := by
  unfold load_and_process_data
  rw [cleanRows_exGood]
  rfl

/-- A frame with exactly one surviving data row. -/
def exOne : RawFrame := ⟨5, [[dcell 7, ncell 100, ncell 1, ncell 1, ncell 1]]⟩

/-- The single surviving row of `exOne`. -/
def bOne : BaseRecord := ⟨7, 100, 1, 1, 1⟩

theorem cleanRows_exOne : cleanRows exOne = Except.ok [bOne] := rfl

/-- A concrete derived record with net-buy night futures whose next-day futures
value is net-sell. -/
def exRecA : DerivedRecord := ⟨2, 100, 50, 30, 20, some 101, some (-10), some 5, some 1⟩

/-- A concrete derived record with net-sell night futures whose next-day
futures value is net-buy. -/
def exRecB : DerivedRecord := ⟨3, 101, -40, -10, 5, some 99, some 15, some (-10), some (-198/100)⟩

/-- A concrete derived record with a zero night-futures value. -/
def exRecZ : DerivedRecord := ⟨4, 99, 0, 20, 15, some 98, some 3, some 3, some 0⟩

/-- Claim C1: for every metric kind, the co-movement probability over a
non-empty slice counts exactly the records whose night-futures value and
target value are both strictly positive or both strictly negative — a zero on
either side never counts — and returns that count divided by the number of
records, times 100. -/
theorem claim_C1 (k : MetricKind) (rows : List DerivedRecord) (r : DerivedRecord)
    (h : rows ≠ []) (hz : r.night_futures_foreign = 0 ∨ targetField k r = some 0) :
    coMovementProbability k rows
      = some (((rows.countP (sameDirection k) : Nat) : ℚ) / (rows.length : ℚ) * 100)
    ∧ sameDirection k r = false := by
  constructor
  · unfold coMovementProbability
    rw [if_neg (by simpa [List.isEmpty_iff] using h)]
    have hd : rows.countP (sameDirection k)
        = sameTrendPositive k rows + sameTrendNegative k rows := by
      unfold sameTrendPositive sameTrendNegative
      refine countP_disjoint _ _ ?_ rows
      intro a ha
      rw [Bool.and_eq_true, decide_eq_true_eq] at ha
      have hneg : ¬ a.night_futures_foreign < 0 := not_lt_of_gt ha.1
      simp [hneg]
    rw [hd]
  · have h00 : ¬ (0 : ℚ) < 0 := lt_irrefl 0
    rcases hz with hz | hz
    · simp [sameDirection, hz, h00]
    · simp [sameDirection, hz, optPos, optNeg, h00]

/-- Witness for C1 at the futures kind on a concrete two-record slice together
with a concrete zero-valued record. -/
theorem claim_C1_witness :
    coMovementProbability MetricKind.futures [exRecA, exRecB]
      = some ((([exRecA, exRecB].countP (sameDirection MetricKind.futures) : Nat) : ℚ)
          / (([exRecA, exRecB] : List DerivedRecord).length : ℚ) * 100)
    ∧ sameDirection MetricKind.futures exRecZ = false :=
  claim_C1 MetricKind.futures [exRecA, exRecB] exRecZ (by simp) (Or.inl rfl)

/-- Claim C2: in the pre-trim derived series, the next-day fields of record `i`
equal the base fields of record `i+1`. -/
theorem claim_C2 (l : List BaseRecord) (i : Nat) (r s : BaseRecord)
    (h1 : l[i]? = some r) (h2 : l[i+1]? = some s) :
    ∃ d, (deriveNext l)[i]? = some d
      ∧ d.next_index_level = some s.index_level
      ∧ d.next_regular_futures_foreign = some s.regular_futures_foreign
      ∧ d.next_regular_spot_foreign = some s.regular_spot_foreign :=
  ⟨mkDerived r (some s), deriveNext_getElem l i r s h1 h2, rfl, rfl, rfl⟩

/-- Witness for C2 on the sorted scenario series at position 0. -/
theorem claim_C2_witness :
    ∃ d, (deriveNext [g1, g2, g3])[0]? = some d
      ∧ d.next_index_level = some g2.index_level
      ∧ d.next_regular_futures_foreign = some g2.regular_futures_foreign
      ∧ d.next_regular_spot_foreign = some g2.regular_spot_foreign :=
  claim_C2 [g1, g2, g3] 0 g1 g2 rfl rfl

/-- Claim C7: whenever loading succeeds, the returned series is one record
shorter than the list of rows that survived all filtering steps: the last
surviving record is dropped. -/
theorem claim_C7 (f : RawFrame) (rows : List BaseRecord)
    (h : cleanRows f = Except.ok rows) :
    load_and_process_data f = Except.ok ((deriveNext (sortByDate rows)).dropLast)
    ∧ ((deriveNext (sortByDate rows)).dropLast).length = rows.length - 1 := by
  constructor
  · unfold load_and_process_data
    rw [h]
  · rw [List.length_dropLast, deriveNext_length]
    unfold sortByDate
    rw [List.length_insertionSort]

/-- Witness for C7 on the scenario frame: 3 surviving rows, output length 2. -/
theorem claim_C7_witness :
    load_and_process_data exGood
      = Except.ok ((deriveNext (sortByDate [g1, g2, g3])).dropLast)
    ∧ ((deriveNext (sortByDate [g1, g2, g3])).dropLast).length
      = ([g1, g2, g3] : List BaseRecord).length - 1 :=
  claim_C7 exGood [g1, g2, g3] cleanRows_exGood

/-- Claim C8: on an empty slice no probability is produced for any metric kind
(the code shows an information message instead of a number). -/
theorem claim_C8 (k : MetricKind) : coMovementProbability k [] = none := rfl

/-- Claim C9: each comparison table has exactly one row per record of the slice
(it is a permutation of the per-record row list) and is ordered by date
descending, for all three metric kinds. -/
theorem claim_C9 (rows : List DerivedRecord) :
    ((create_comparison_table_futures rows).Perm (rows.map futuresRow)
      ∧ (create_comparison_table_futures rows).Sorted laterNum)
    ∧ ((create_comparison_table_spot rows).Perm (rows.map spotRow)
      ∧ (create_comparison_table_spot rows).Sorted laterNum)
    ∧ ((create_comparison_table_k200 rows).Perm (rows.map k200Row)
      ∧ (create_comparison_table_k200 rows).Sorted laterIdx) :=
  ⟨⟨List.perm_insertionSort laterNum (rows.map futuresRow),
    List.sorted_insertionSort laterNum (rows.map futuresRow)⟩,
   ⟨List.perm_insertionSort laterNum (rows.map spotRow),
    List.sorted_insertionSort laterNum (rows.map spotRow)⟩,
   ⟨List.perm_insertionSort laterIdx (rows.map k200Row),
    List.sorted_insertionSort laterIdx (rows.map k200Row)⟩⟩

/-- Claim C10: if exactly one row survives all filtering steps, loading
succeeds with an empty series instead of failing with NoDataError, because the
no-valid-data check precedes the unconditional trim of the last record. -/
theorem claim_C10 (f : RawFrame) (b : BaseRecord)
    (h : cleanRows f = Except.ok [b]) :
    load_and_process_data f = Except.ok [] := by
  unfold load_and_process_data
  rw [h]
  rfl

/-- Witness for C10 on a one-row frame. -/
theorem claim_C10_witness : load_and_process_data exOne = Except.ok [] :=
  claim_C10 exOne bOne cleanRows_exOne

/-- A frame whose index level jumps from 30000 to 30001: the true change is
1/300 of a percent, which rounds to 0.00 at 2 decimals. -/
def exC3 : RawFrame :=
  ⟨5, [[dcell 1, ncell 30000, ncell 1, ncell 1, ncell 1],
       [dcell 2, ncell 30001, ncell 1, ncell 1, ncell 1]]⟩

/-- Parsed first row of `exC3`. -/
def b3a : BaseRecord := ⟨1, 30000, 1, 1, 1⟩

/-- Parsed second row of `exC3`. -/
def b3b : BaseRecord := ⟨2, 30001, 1, 1, 1⟩

theorem cleanRows_exC3 : cleanRows exC3 = Except.ok [b3a, b3b] := rfl

theorem load_exC3 :
    load_and_process_data exC3 = Except.ok [mkDerived b3a (some b3b)] := by
  unfold load_and_process_data
  rw [cleanRows_exC3]
  rfl

/-- Counterexample to C3 as stated: the record for day 1 has
`index_change_pct = 0.00`, yet `index_level × (1 + 0/100) = 30000` misses
`next_index_level = 30001` by a full point, far beyond any 2-decimal
tolerance on the index level. -/
theorem claim_C3_counterexample :
    (load_and_process_data exC3).map
        (fun l => l.map (fun r => (r.index_level, r.next_index_level, r.index_change_pct)))
      = Except.ok [((30000 : ℚ), some (30001 : ℚ), some (0 : ℚ))]
    ∧ ¬ |(30000 : ℚ) * (1 + 0 / 100) - 30001| ≤ 1 / 100 := by
  constructor
  · rw [load_exC3]
    norm_num [Except.map, b3a, b3b, mkDerived, changePct, round2, round_eq]
  · norm_num

/-- Claim C3 (amended): for every output record with a nonzero index level,
`index_change_pct` is exactly the 2-decimal rounding of
(next − current)/current × 100, and inverting it recovers the next index
level within |index_level|/20000 — half a unit in the last retained decimal
of the percentage, scaled by the index level — not within an absolute
2-decimal tolerance on the index level itself. -/
theorem claim_C3_amended (f : RawFrame) (out : List DerivedRecord) (r : DerivedRecord)
    (hl : load_and_process_data f = Except.ok out) (hm : r ∈ out)
    (hz : r.index_level ≠ 0) :
    ∃ nxt, r.next_index_level = some nxt
      ∧ r.index_change_pct = some (round2 ((nxt - r.index_level) / r.index_level * 100))
      ∧ |r.index_level * (1 + round2 ((nxt - r.index_level) / r.index_level * 100) / 100) - nxt|
          ≤ |r.index_level| / 20000 := by
  unfold load_and_process_data at hl
  cases hc : cleanRows f with
  | error e => rw [hc] at hl; simp at hl
  | ok rows =>
    rw [hc] at hl
    injection hl with hl
    subst hl
    obtain ⟨b, s, rfl⟩ := mem_dropLast_deriveNext _ _ hm
    refine ⟨s.index_level, rfl, ?_, ?_⟩
    · show changePct b.index_level s.index_level = _
      unfold changePct
      have hz2 : b.index_level ≠ 0 := hz
      rw [if_neg hz2]
      rfl
    · exact roundtrip_bound b.index_level s.index_level hz

/-- Witness for the amended C3 on the scenario series: the day-2 record has
index level 100, change 1.00%, and the bound holds. -/
theorem claim_C3_amended_witness :
    ∃ nxt, (mkDerived g1 (some g2)).next_index_level = some nxt
      ∧ (mkDerived g1 (some g2)).index_change_pct
        = some (round2 ((nxt - (mkDerived g1 (some g2)).index_level)
            / (mkDerived g1 (some g2)).index_level * 100))
      ∧ |(mkDerived g1 (some g2)).index_level
            * (1 + round2 ((nxt - (mkDerived g1 (some g2)).index_level)
                / (mkDerived g1 (some g2)).index_level * 100) / 100) - nxt|
          ≤ |(mkDerived g1 (some g2)).index_level| / 20000 :=
  claim_C3_amended exGood [mkDerived g1 (some g2), mkDerived g2 (some g3)]
    (mkDerived g1 (some g2)) load_exGood (List.mem_cons_self _ _)
    (by norm_num [mkDerived, g1])

/-- A frame whose first surviving row has a zero index level. -/
def exC4 : RawFrame :=
  ⟨5, [[dcell 1, ncell 0, ncell 1, ncell 1, ncell 1],
       [dcell 2, ncell 100, ncell 1, ncell 1, ncell 1]]⟩

/-- Parsed first row of `exC4` (zero index level). -/
def b4a : BaseRecord := ⟨1, 0, 1, 1, 1⟩

/-- Parsed second row of `exC4`. -/
def b4b : BaseRecord := ⟨2, 100, 1, 1, 1⟩

theorem cleanRows_exC4 : cleanRows exC4 = Except.ok [b4a, b4b] := rfl

theorem load_exC4 :
    load_and_process_data exC4 = Except.ok [mkDerived b4a (some b4b)] := by
  unfold load_and_process_data
  rw [cleanRows_exC4]
  rfl

/-- Claim C4 evaluation: on a series containing a zero index level, loading
SUCCEEDS — no ComputationError is raised — and the returned record carries the
unguarded non-finite change percentage (numpy's inf/NaN, modelled `none`).
This contradicts the claim that the computation fails with a reported error. -/
theorem claim_C4_eval :
    (load_and_process_data exC4).map
        (fun l => l.map (fun r => (r.index_level, r.index_change_pct)))
      = Except.ok [((0 : ℚ), (none : Option ℚ))] := by
  rw [load_exC4]
  rfl

/-- A 6-column frame with one fully valid data row. -/
def exC5 : RawFrame :=
  ⟨6, [[dcell 1, ncell 1, ncell 1, ncell 1, ncell 1, ncell 1]]⟩

/-- Counterexample to C5 as stated: the decoded file yields 6 ≥ 5 columns and
a fully valid row, yet ingestion does not proceed — assigning the 5 fixed
names to 6 columns makes pandas raise a length-mismatch ValueError, so loading
fails. -/
theorem claim_C5_counterexample :
    exC5.ncols = 6
    ∧ load_and_process_data exC5 = Except.error (LoadError.lengthMismatch 6) :=
  ⟨rfl, rfl⟩

/-- Claim C5 (amended): for frames on which the header-stripping inspections do
not themselves raise, loading fails with SchemaError when fewer than 5 columns
are present; with exactly 5 columns the rename succeeds and ingestion proceeds
past column assignment (any later failure is NoDataError, never a schema or
length-mismatch error); with more than 5 columns loading fails with the pandas
length-mismatch error instead of proceeding. -/
theorem claim_C5_amended (f : RawFrame) (rs : List (List Cell))
    (h : stripHeaders f.rows = some rs) :
    (f.ncols < 5 → load_and_process_data f = Except.error (LoadError.schemaError f.ncols))
    ∧ (f.ncols = 5 → ∀ n, load_and_process_data f ≠ Except.error (LoadError.schemaError n)
        ∧ load_and_process_data f ≠ Except.error (LoadError.lengthMismatch n))
    ∧ (5 < f.ncols → load_and_process_data f = Except.error (LoadError.lengthMismatch f.ncols)) := by
  refine ⟨?_, ?_, ?_⟩
  · intro hlt
    have h5 : ¬ 5 ≤ f.ncols := by omega
    unfold load_and_process_data cleanRows
    rw [h]
    simp [assignColumns, h5]
  · intro he n
    have hcl : cleanRows f = filterStage rs := by
      unfold cleanRows
      rw [h, he]
      rfl
    rcases filterStage_cases rs with hok | ⟨rows, hok⟩ <;>
      rw [hok] at hcl <;> unfold load_and_process_data <;> rw [hcl] <;>
        exact ⟨by simp, by simp⟩
  · intro hgt
    have h5 : 5 ≤ f.ncols := le_of_lt hgt
    have hne : f.ncols ≠ 5 := by omega
    unfold load_and_process_data cleanRows
    rw [h]
    simp [assignColumns, h5, hne]

/-- A 3-column frame with one data row. -/
def exW5 : RawFrame := ⟨3, [[dcell 1, ncell 1, ncell 1]]⟩

/-- Witness for the amended C5: a 3-column frame fails with SchemaError. -/
theorem claim_C5_amended_witness :
    load_and_process_data exW5 = Except.error (LoadError.schemaError 3) :=
  (claim_C5_amended exW5 exW5.rows rfl).1 (by decide)

/-- A frame containing two rows with the same date (day 5) and one later row. -/
def exC6 : RawFrame :=
  ⟨5, [[dcell 5, ncell 100, ncell 1, ncell 1, ncell 1],
       [dcell 9, ncell 101, ncell 1, ncell 1, ncell 1],
       [dcell 5, ncell 102, ncell 1, ncell 1, ncell 1]]⟩

/-- Parsed first row of `exC6`. -/
def b6a : BaseRecord := ⟨5, 100, 1, 1, 1⟩

/-- Parsed second row of `exC6`. -/
def b6b : BaseRecord := ⟨9, 101, 1, 1, 1⟩

/-- Parsed third row of `exC6` (same date as the first). -/
def b6c : BaseRecord := ⟨5, 102, 1, 1, 1⟩

theorem cleanRows_exC6 : cleanRows exC6 = Except.ok [b6a, b6b, b6c] := rfl

/-- Counterexample to C6 as stated: duplicate input dates survive every filter,
so the returned series has two records dated day 5 — the date sequence is
[5, 5], which is neither strictly ascending nor duplicate-free. -/
theorem claim_C6_counterexample :
    (load_and_process_data exC6).map (fun l => l.map (fun r => r.date))
      = Except.ok [(5 : Int), 5]
    ∧ ¬ ([(5 : Int), 5]).Pairwise (fun a b => a < b) := by
  constructor
  · unfold load_and_process_data
    rw [cleanRows_exC6]
    rfl
  · simp

/-- Claim C6 (amended): whenever loading succeeds the returned series is sorted
(non-strictly) ascending by date; records with duplicate dates are all
retained, so strictness and uniqueness need not hold. -/
theorem claim_C6_amended (f : RawFrame) (out : List DerivedRecord)
    (h : load_and_process_data f = Except.ok out) :
    (out.map (fun r => r.date)).Sorted (fun a b => a ≤ b) := by
  unfold load_and_process_data at h
  cases hc : cleanRows f with
  | error e => rw [hc] at h; simp at h
  | ok rows =>
    rw [hc] at h
    injection h with h
    subst h
    have hs : (sortByDate rows).Sorted dateLe := List.sorted_insertionSort dateLe rows
    have hdates : ((sortByDate rows).map (fun r => r.date)).Sorted (fun a b => a ≤ b) := by
      rw [List.Sorted, List.pairwise_map]
      exact hs
    rw [List.map_dropLast, deriveNext_map_date]
    exact hdates.sublist (List.dropLast_sublist _)

/-- Witness for the amended C6 on the scenario frame: its output date sequence
is sorted ascending. -/
theorem claim_C6_amended_witness :
    (([mkDerived g1 (some g2), mkDerived g2 (some g3)] : List DerivedRecord).map
        (fun r => r.date)).Sorted (fun a b => a ≤ b) :=
  claim_C6_amended exGood [mkDerived g1 (some g2), mkDerived g2 (some g3)] load_exGood
